import Mathlib

/-!
Verification development for the dental-practice scheduling backend.

The definitions below are a shallow embedding of the Python sources:

* `src/models/appointment.py` — the `Appointment` record, its status and
  type enumerations, `get_end_time`, `can_be_cancelled`, `to_dict`.
* `src/services/appointment_service.py` — the in-memory appointment store
  and its operations `create_appointment`, `_has_conflict`,
  `reschedule_appointment`, `cancel_appointment`, `get_available_slots`,
  `_create_appointment_from_dict`.
* `src/utils/voice_processor.py` — the regex-based intent dispatch
  `extract_intent` and entity extraction `extract_entities`.

Modelling conventions:

* Python `datetime` values are modelled as `Int` minutes on a global
  timeline; `timedelta(minutes=m)` is `+ m`, `timedelta(hours=h)` is
  `+ 60*h`.  `datetime.isoformat` / `fromisoformat` round-trip exactly,
  so serialized timestamps are carried as the same `Int`.
* The Python dict `self.appointments` (insertion-ordered, keyed by
  `appointment_id`) is modelled as a `List Appointment` in insertion
  order; dict assignment replaces the entry with the same id if present
  and appends otherwise, and `dict.get` returns the first (unique) entry
  with the id.
* Python truthiness of an `Optional[str]` (`if dentist_id:`) is `false`
  exactly on `None` and on the empty string; `pyTruthy` captures this.
* Mutation of an `Appointment` object found via the dict is modelled by
  rewriting that entry in place (`updateFirst`).
-/

/-! ## Definitions: shallow embedding of the sources -/

/-- Status enumeration from `AppointmentStatus` in `src/models/appointment.py`. -/
inductive AppointmentStatus where
  | scheduled
  | confirmed
  | in_progress
  | completed
  | cancelled
  | no_show
deriving DecidableEq

/-- Type enumeration from `AppointmentType` in `src/models/appointment.py`. -/
inductive AppointmentType where
  | consultation
  | cleaning
  | filling
  | root_canal
  | extraction
  | whitening
  | implant
  | emergency
  | follow_up
deriving DecidableEq

/-- Entry of `Appointment.reminders_sent` (a dict with `type` and `sent_at`). -/
structure ReminderRec where
  rtype : String
  sent_at : String
deriving DecidableEq

/-- Entry of `Appointment.treatment_notes` (dict with `note`, `dentist_id`, `timestamp`). -/
structure TreatmentNote where
  note : String
  dentist_id : String
  timestamp : String
deriving DecidableEq

/-- The `Appointment` record from `src/models/appointment.py`. -/
structure Appointment where
  appointment_id : String
  patient_id : String
  appointment_type : AppointmentType
  scheduled_date : Int
  duration_minutes : Int
  dentist_id : Option String
  notes : String
  status : AppointmentStatus
  created_at : Int
  updated_at : Int
  reminders_sent : List ReminderRec
  treatment_notes : List TreatmentNote
deriving DecidableEq

/-- Method `get_end_time`: `scheduled_date + timedelta(minutes=duration_minutes)`. -/
def endTime (a : Appointment) : Int :=
  a.scheduled_date + a.duration_minutes

/-- Method `can_be_cancelled`: `scheduled_date > now + timedelta(hours=24)`. -/
def canBeCancelled (a : Appointment) (now : Int) : Bool :=
  decide (a.scheduled_date > now + 24 * 60)

/-- Truthiness of a Python `Optional[str]`: `None` and `""` are falsy. -/
def pyTruthy : Option String → Bool
  | none => false
  | some s => !(s == "")

/-- The store of `AppointmentService`: the values of the id-keyed dict in
insertion order. -/
abbrev Store : Type := List Appointment

/-- Loop filter in `_has_conflict`: `if appointment.status in
[AppointmentStatus.CANCELLED, AppointmentStatus.NO_SHOW]: continue`. -/
def isActive (a : Appointment) : Bool :=
  match a.status with
  | .cancelled => false
  | .no_show => false
  | _ => true

/-- Second loop filter in `_has_conflict`: `if dentist_id and
appointment.dentist_id and appointment.dentist_id != dentist_id: continue`. -/
def dentistSkip (did adid : Option String) : Bool :=
  pyTruthy did && (pyTruthy adid && decide (adid ≠ did))

/-- Body of the `_has_conflict` loop for one stored appointment `a`, after the
status filter: the pair conflicts when the dentist filter does not skip it and
`scheduled_date < appointment.get_end_time() and end_time >
appointment.scheduled_date`. -/
def conflictsWith (sd dur : Int) (did : Option String) (a : Appointment) : Bool :=
  !dentistSkip did a.dentist_id &&
    (decide (sd < endTime a) && decide (sd + dur > a.scheduled_date))

/-- Method `_has_conflict(scheduled_date, duration_minutes, dentist_id)` of
`AppointmentService`: scans every stored appointment and reports a conflict on
the first active one that passes the dentist filter and overlaps. -/
def hasConflict (s : Store) (sd dur : Int) (did : Option String) : Bool :=
  s.any (fun a => isActive a && conflictsWith sd dur did a)

/-- Zero-padding of `f"{n:04d}"` (pads with zeros to at least four digits). -/
def pad4 (n : Nat) : String :=
  let s := Nat.repr n
  if s.length < 4 then String.mk (List.replicate (4 - s.length) '0') ++ s else s

/-- Id generation in `create_appointment`: `f"A{len(self.appointments) + 1:04d}"`. -/
def nextId (s : Store) : String :=
  "A" ++ pad4 (s.length + 1)

/-- Replacement of the first entry carrying `a.appointment_id`; with the
unique keys of a Python dict this is dict assignment to an existing key. -/
def replaceFirst : Store → Appointment → Store
  | [], _ => []
  | b :: rest, a =>
    if b.appointment_id == a.appointment_id then a :: rest
    else b :: replaceFirst rest a

/-- Dict assignment `self.appointments[appointment_id] = appointment`:
replaces the entry with the same key when present, appends otherwise. -/
def pyInsert (s : Store) (a : Appointment) : Store :=
  if s.any (fun b => b.appointment_id == a.appointment_id) then replaceFirst s a
  else s ++ [a]

/-- In-place mutation of the object `self.appointments.get(aid)` returned by
the dict: rewrite the first entry whose id is `aid`. -/
def updateFirst (aid : String) (f : Appointment → Appointment) : Store → Store
  | [] => []
  | b :: rest =>
    if b.appointment_id == aid then f b :: rest
    else b :: updateFirst aid f rest

/-- Dict lookup `self.appointments.get(appointment_id)` (`get_appointment`). -/
def getAppointment (s : Store) (aid : String) : Option Appointment :=
  s.find? (fun a => a.appointment_id == aid)

/-- Record built by the `Appointment` constructor call inside
`create_appointment`: fresh sequential id, the given fields, and the
constructor defaults status `scheduled`, `created_at = updated_at = now`,
empty `reminders_sent` and `treatment_notes`. -/
def newAppointment (s : Store) (pid : String) (ty : AppointmentType)
    (sd dur : Int) (did : Option String) (notes : String) (now : Int) :
    Appointment :=
  { appointment_id := nextId s
    patient_id := pid
    appointment_type := ty
    scheduled_date := sd
    duration_minutes := dur
    dentist_id := did
    notes := notes
    status := .scheduled
    created_at := now
    updated_at := now
    reminders_sent := []
    treatment_notes := [] }

/-- Method `create_appointment` of `AppointmentService`: rejects with the
`None` sentinel on conflict, otherwise builds the new appointment, stores it
and returns it.  `now` stands for `datetime.now()`. -/
def createAppointment (s : Store) (pid : String) (ty : AppointmentType)
    (sd dur : Int) (did : Option String) (notes : String) (now : Int) :
    Option Appointment × Store :=
  if hasConflict s sd dur did then (none, s)
  else
    let a : Appointment := newAppointment s pid ty sd dur did notes now
    (some a, pyInsert s a)

/-- Method `reschedule_appointment(appointment_id, new_date)`: returns `False`
on a missing id, re-validates `_has_conflict` with the appointment's stored
duration and dentist (the scan runs over the whole store, the rescheduled
appointment included), and on success rewrites `scheduled_date` and
`updated_at`. -/
def rescheduleAppointment (s : Store) (aid : String) (nd now : Int) : Bool × Store :=
  match getAppointment s aid with
  | none => (false, s)
  | some a =>
    if hasConflict s nd a.duration_minutes a.dentist_id then (false, s)
    else (true, updateFirst aid
      (fun b => { b with scheduled_date := nd, updated_at := now }) s)

/-- Note appended by `cancel_appointment`:
`f"\nCancelled: {reason}" if reason else "\nCancelled"`. -/
def cancelNote (reason : String) : String :=
  if reason == "" then "\nCancelled" else "\nCancelled: " ++ reason

/-- Mutation performed by a successful `cancel_appointment`: `update_status`
sets the status and `updated_at`, then the note is appended. -/
def cancelUpd (reason : String) (now : Int) (b : Appointment) : Appointment :=
  { b with status := .cancelled, updated_at := now, notes := b.notes ++ cancelNote reason }

/-- Method `cancel_appointment(appointment_id, reason)`: succeeds only when
the appointment exists and `can_be_cancelled()` holds at the current time. -/
def cancelAppointment (s : Store) (aid reason : String) (now : Int) : Bool × Store :=
  match getAppointment s aid with
  | none => (false, s)
  | some a =>
    if canBeCancelled a now then (true, updateFirst aid (cancelUpd reason now) s)
    else (false, s)

/-- Loop of `get_available_slots`: `while current_time + duration <= end_time`,
emitting conflict-free candidates and stepping by 30 minutes.  The fuel is the
exact iteration count of the Python `while` loop (computed below), so the
recursion mirrors the loop step for step. -/
def slotsLoop (s : Store) (dur : Int) (did : Option String) (endT : Int) :
    Nat → Int → List Int
  | 0, _ => []
  | fuel + 1, cur =>
    if cur + dur ≤ endT then
      if hasConflict s cur dur did then slotsLoop s dur did endT fuel (cur + 30)
      else cur :: slotsLoop s dur did endT fuel (cur + 30)
    else []

/-- Iteration count of the `get_available_slots` loop: starts at 09:00, ends
at 17:00, stride 30, so the starts tried are `540 + 30*k` with
`540 + 30*k + dur ≤ 1020`, i.e. `(480 - dur)/30 + 1` of them when that
quantity is positive. -/
def slotsFuel (dur : Int) : Nat :=
  ((480 - dur) / 30 + 1).toNat

/-- Method `get_available_slots(date, duration_minutes, dentist_id)`:
`dayStart` is midnight of the requested calendar date; the window is the fixed
09:00–17:00 of that day. -/
def getAvailableSlots (s : Store) (dayStart dur : Int) (did : Option String) : List Int :=
  slotsLoop s dur did (dayStart + 1020) (slotsFuel dur) (dayStart + 540)

-- quick sanity examples (removed later if noisy)

/-- Dentist relation of the specification: the two appointments share a
dentist id, or either has dentist id `None`. -/
def sharedDentist (d e : Option String) : Prop :=
  d = e ∨ d = none ∨ e = none

instance sharedDentistDec (d e : Option String) : Decidable (sharedDentist d e) := by
  unfold sharedDentist; infer_instance

/-- Compatibility of two stored appointments: they must not both be active,
fall under the dentist relation, and have overlapping half-open intervals. -/
def compatP (a b : Appointment) : Prop :=
  ¬(isActive a = true ∧ isActive b = true ∧
    sharedDentist a.dentist_id b.dentist_id ∧
    (a.scheduled_date < endTime b ∧ endTime a > b.scheduled_date))

instance compatPDec (a b : Appointment) : Decidable (compatP a b) := by
  unfold compatP; infer_instance

/-- Store invariant: no two stored appointments double-book. -/
def NoDoubleBooking (s : Store) : Prop :=
  List.Pairwise compatP s

instance noDoubleBookingDec (s : Store) : Decidable (NoDoubleBooking s) := by
  unfold NoDoubleBooking; infer_instance

/-- Sequential operations of the induction in claim C1. -/
inductive Op where
  | create (pid : String) (ty : AppointmentType) (sd dur : Int)
      (did : Option String) (notes : String) (now : Int)
  | reschedule (aid : String) (nd now : Int)

/-- Store transition of one sequential call. -/
def stepOp (s : Store) : Op → Store
  | .create pid ty sd dur did notes now =>
    (createAppointment s pid ty sd dur did notes now).2
  | .reschedule aid nd now => (rescheduleAppointment s aid nd now).2

/-- Store reached after a sequence of sequential calls. -/
def runOps (s : Store) (ops : List Op) : Store :=
  ops.foldl stepOp s

/-- Shorthand for a concrete appointment used by the closed witnesses. -/
def demoAppt (aid : String) (sd dur : Int) (did : Option String)
    (st : AppointmentStatus) (notes : String) : Appointment :=
  { appointment_id := aid
    patient_id := "P0001"
    appointment_type := .cleaning
    scheduled_date := sd
    duration_minutes := dur
    dentist_id := did
    notes := notes
    status := st
    created_at := 0
    updated_at := 0
    reminders_sent := []
    treatment_notes := [] }

/-- Store holding exactly one appointment, scheduled at `[600, 660)`. -/
def soloStore : Store := [demoAppt "A0001" 600 60 none .scheduled ""]

/-- Arithmetic progression `start, start + step, …` of a given length, used
to describe the slot sequence. -/
def apList (start step : Int) : Nat → List Int
  | 0 => []
  | n + 1 => start :: apList (start + step) step n

/-- Conflict predicate written from the specification's words, for comparison
with the source's `conflictsWith`: the `[start, end)` intervals overlap and
NOT (both appointments have a dentist id assigned and the two ids differ). -/
def specConflict (sd dur : Int) (did : Option String) (a : Appointment) : Prop :=
  (sd < endTime a ∧ sd + dur > a.scheduled_date) ∧
  ¬(did.isSome ∧ a.dentist_id.isSome ∧ a.dentist_id ≠ did)

instance specConflictDec (sd dur : Int) (did : Option String) (a : Appointment) :
    Decidable (specConflict sd dur did a) := by
  unfold specConflict; infer_instance

/-- Store with one appointment starting 23 hours from `now = 0`. -/
def store23h : Store := [demoAppt "A0001" 1380 60 none .scheduled ""]

/-- Store with one appointment starting 25 hours from `now = 0`. -/
def store25h : Store := [demoAppt "A0001" 1500 60 none .scheduled ""]

/-- Store whose only appointment is already cancelled, with some prior notes. -/
def cancelledStore : Store := [demoAppt "A0001" 5000 60 none .cancelled "n0"]

/-- Store with one active appointment at `[600, 660)`, used by the C6 witness. -/
def busyStore : Store := [demoAppt "A0001" 600 60 none .scheduled ""]

/-- Enum serialization `AppointmentStatus(...).value`. -/
def statusValue : AppointmentStatus → String
  | .scheduled => "scheduled"
  | .confirmed => "confirmed"
  | .in_progress => "in_progress"
  | .completed => "completed"
  | .cancelled => "cancelled"
  | .no_show => "no_show"

/-- Enum parsing `AppointmentStatus(value)`; an unknown code raises, modelled
as `none`. -/
def statusFromValue : String → Option AppointmentStatus
  | "scheduled" => some .scheduled
  | "confirmed" => some .confirmed
  | "in_progress" => some .in_progress
  | "completed" => some .completed
  | "cancelled" => some .cancelled
  | "no_show" => some .no_show
  | _ => none

/-- Enum serialization `AppointmentType(...).value`. -/
def typeValue : AppointmentType → String
  | .consultation => "consultation"
  | .cleaning => "cleaning"
  | .filling => "filling"
  | .root_canal => "root_canal"
  | .extraction => "extraction"
  | .whitening => "whitening"
  | .implant => "implant"
  | .emergency => "emergency"
  | .follow_up => "follow_up"

/-- Enum parsing `AppointmentType(value)`; an unknown code raises, modelled
as `none`. -/
def typeFromValue : String → Option AppointmentType
  | "consultation" => some .consultation
  | "cleaning" => some .cleaning
  | "filling" => some .filling
  | "root_canal" => some .root_canal
  | "extraction" => some .extraction
  | "whitening" => some .whitening
  | "implant" => some .implant
  | "emergency" => some .emergency
  | "follow_up" => some .follow_up
  | _ => none

/-- The dictionary produced by `Appointment.to_dict` (the JSON object the
full-store save writes for one appointment).  `isoformat`/`fromisoformat`
round-trip exactly, so the serialized timestamps are carried as the same
`Int` minutes. -/
structure ApptDict where
  appointment_id : String
  patient_id : String
  appointment_type : String
  scheduled_date : Int
  duration_minutes : Int
  dentist_id : Option String
  notes : String
  status : String
  created_at : Int
  updated_at : Int
  reminders_sent : List ReminderRec
  treatment_notes : List TreatmentNote
deriving DecidableEq

/-- Method `to_dict` of `Appointment`. -/
def to_dict (a : Appointment) : ApptDict :=
  { appointment_id := a.appointment_id
    patient_id := a.patient_id
    appointment_type := typeValue a.appointment_type
    scheduled_date := a.scheduled_date
    duration_minutes := a.duration_minutes
    dentist_id := a.dentist_id
    notes := a.notes
    status := statusValue a.status
    created_at := a.created_at
    updated_at := a.updated_at
    reminders_sent := a.reminders_sent
    treatment_notes := a.treatment_notes }

/-- Method `_create_appointment_from_dict` of `AppointmentService`: rebuilds
the appointment from the dictionary — constructor call with the serialized
core fields, then restoration of status, sub-record lists and timestamps.
The enum constructors raise on unknown codes, modelled by `Option`. -/
def createAppointmentFromDict (d : ApptDict) : Option Appointment := do
  let ty ← typeFromValue d.appointment_type
  let st ← statusFromValue d.status
  pure
    { appointment_id := d.appointment_id
      patient_id := d.patient_id
      appointment_type := ty
      scheduled_date := d.scheduled_date
      duration_minutes := d.duration_minutes
      dentist_id := d.dentist_id
      notes := d.notes
      status := st
      created_at := d.created_at
      updated_at := d.updated_at
      reminders_sent := d.reminders_sent
      treatment_notes := d.treatment_notes }

/-- Abstract syntax of the regular expressions appearing in
`src/utils/voice_processor.py`: literal characters, character classes
(`\s`, `\w`, `\d`, the slash-or-dash class), alternation, concatenation and
repetition. -/
inductive RE where
  | eps
  | chr (c : Char)
  | cls (p : Char → Bool)
  | alt (r1 r2 : RE)
  | cat (r1 r2 : RE)
  | star (r : RE)

/-- Structural size of a regular expression, used to pick a sufficient fuel. -/
def reSize : RE → Nat
  | .eps => 1
  | .chr _ => 1
  | .cls _ => 1
  | .alt r1 r2 => reSize r1 + reSize r2 + 1
  | .cat r1 r2 => reSize r1 + reSize r2 + 1
  | .star r => reSize r + 1

/-- Backtracking matcher in the priority order of Python's `re` engine: the
result lists every `(consumed, rest)` split of the input the expression can
match at its head, ordered as backtracking visits them — left alternative
first, greedy repetition (longer continuations first, the empty repetition
last, and only non-empty iterations repeat).  The fuel only bounds the
recursion depth; callers pass one large enough for the whole search. -/
def REmatches : Nat → RE → List Char → List (List Char × List Char)
  | 0, _, _ => []
  | fuel + 1, r, s =>
    match r with
    | .eps => [([], s)]
    | .chr c =>
      match s with
      | [] => []
      | a :: rest => if a = c then [([a], rest)] else []
    | .cls p =>
      match s with
      | [] => []
      | a :: rest => if p a then [([a], rest)] else []
    | .alt r1 r2 => REmatches fuel r1 s ++ REmatches fuel r2 s
    | .cat r1 r2 =>
      (REmatches fuel r1 s).flatMap (fun pr =>
        (REmatches fuel r2 pr.2).map (fun qr => (pr.1 ++ qr.1, qr.2)))
    | .star r1 =>
      ((REmatches fuel r1 s).filter (fun pr => !pr.1.isEmpty)).flatMap (fun pr =>
        (REmatches fuel (.star r1) pr.2).map (fun qr => (pr.1 ++ qr.1, qr.2)))
      ++ [([], s)]

/-- Python `re.search`: try the pattern at every start position from the left
and return `group(0)` — the first (highest-priority) match at the leftmost
matching position — or `None`. -/
def research (r : RE) : List Char → Option (List Char)
  | [] =>
    match REmatches ((reSize r + 1) * 2) r [] with
    | pr :: _ => some pr.1
    | [] => none
  | c :: rest =>
    match REmatches ((reSize r + 1) * (rest.length + 3)) r (c :: rest) with
    | pr :: _ => some pr.1
    | [] => research r rest

/-- Python `\s` (ASCII): space, tab, newline, carriage return, vertical tab,
form feed. -/
def isSpaceChar (c : Char) : Bool :=
  c == ' ' || c == '\t' || c == '\n' || c == '\r' || c == '\x0b' || c == '\x0c'

/-- Python `\w` restricted to ASCII: letters, digits and underscore (the
inputs of this code path are lowercased ASCII transcripts). -/
def isWordChar (c : Char) : Bool :=
  c.isAlphanum || c == '_'

/-- Python `\d` (ASCII digits). -/
def reDigit : RE := RE.cls Char.isDigit

/-- Literal string as a regular expression. -/
def lit (s : String) : RE :=
  s.data.foldr (fun c r => RE.cat (RE.chr c) r) RE.eps

/-- Alternation of a list of branches, keeping their order (leftmost first). -/
def alts : List RE → RE
  | [] => RE.cls (fun _ => false)
  | [r] => r
  | r :: rest => RE.alt r (alts rest)

/-- Alternation of literal words, as in `(schedule|book|make)`. -/
def oneOf (l : List String) : RE :=
  alts (l.map lit)

/-- Concatenation of a list of pieces. -/
def cats : List RE → RE
  | [] => RE.eps
  | [r] => r
  | r :: rest => RE.cat r (cats rest)

/-- Greedy `+`. -/
def rplus (r : RE) : RE := RE.cat r (RE.star r)

/-- Greedy `?` (prefers the present branch, as Python does). -/
def ropt (r : RE) : RE := RE.alt r RE.eps

/-- Whitespace `\s+`. -/
def wsp : RE := rplus (RE.cls isSpaceChar)

/-- Word `\w+`. -/
def wordPlus : RE := rplus (RE.cls isWordChar)

/-- Optional article `(an?\s+)?`. -/
def anOpt : RE := ropt (cats [lit "a", ropt (RE.chr 'n'), wsp])

/-- Pattern `(schedule|book|make)\s+(an?\s+)?appointment`. -/
def schedP1 : RE := cats [oneOf ["schedule", "book", "make"], wsp, anOpt, lit "appointment"]

/-- Pattern `(want|need)\s+(to\s+)?(schedule|book)\s+(an?\s+)?appointment`. -/
def schedP2 : RE := cats [oneOf ["want", "need"], wsp, ropt (cats [lit "to", wsp]),
  oneOf ["schedule", "book"], wsp, anOpt, lit "appointment"]

/-- Pattern `appointment\s+(for|on)\s+(\w+)`. -/
def schedP3 : RE := cats [lit "appointment", wsp, oneOf ["for", "on"], wsp, wordPlus]

/-- Pattern `(when|what)\s+(time|day)\s+(are|do)\s+(you|they)\s+(have|available)`. -/
def schedP4 : RE := cats [oneOf ["when", "what"], wsp, oneOf ["time", "day"], wsp,
  oneOf ["are", "do"], wsp, oneOf ["you", "they"], wsp, oneOf ["have", "available"]]

/-- Pattern `(available|open|free)\s+(time|slot|appointment)`. -/
def availP1 : RE := cats [oneOf ["available", "open", "free"], wsp,
  oneOf ["time", "slot", "appointment"]]

/-- Pattern `(what|when)\s+(are|do)\s+(you|they)\s+(have|available)`. -/
def availP2 : RE := cats [oneOf ["what", "when"], wsp, oneOf ["are", "do"], wsp,
  oneOf ["you", "they"], wsp, oneOf ["have", "available"]]

/-- Pattern `(next|upcoming)\s+(available|open)\s+(time|slot)`. -/
def availP3 : RE := cats [oneOf ["next", "upcoming"], wsp, oneOf ["available", "open"],
  wsp, oneOf ["time", "slot"]]

/-- Pattern `(accept|take|work\s+with)\s+(insurance|coverage)`. -/
def insurP1 : RE := cats [alts [lit "accept", lit "take", cats [lit "work", wsp, lit "with"]],
  wsp, oneOf ["insurance", "coverage"]]

/-- Pattern `(what|which)\s+(insurance|provider)\s+(do\s+you|are\s+accepted)`. -/
def insurP2 : RE := cats [oneOf ["what", "which"], wsp, oneOf ["insurance", "provider"],
  wsp, alts [cats [lit "do", wsp, lit "you"], cats [lit "are", wsp, lit "accepted"]]]

/-- Pattern `(my|the)\s+(insurance|provider)\s+(is|are)`. -/
def insurP3 : RE := cats [oneOf ["my", "the"], wsp, oneOf ["insurance", "provider"],
  wsp, oneOf ["is", "are"]]

/-- Pattern `(coverage|benefits)\s+(for|of)`. -/
def insurP4 : RE := cats [oneOf ["coverage", "benefits"], wsp, oneOf ["for", "of"]]

/-- Pattern `(what|which)\s+(services|treatments)\s+(do\s+you|are\s+offered)`. -/
def servP1 : RE := cats [oneOf ["what", "which"], wsp, oneOf ["services", "treatments"],
  wsp, alts [cats [lit "do", wsp, lit "you"], cats [lit "are", wsp, lit "offered"]]]

/-- Pattern `(cost|price|how\s+much)\s+(for|is)\s+(\w+)`. -/
def servP2 : RE := cats [alts [lit "cost", lit "price", cats [lit "how", wsp, lit "much"]],
  wsp, oneOf ["for", "is"], wsp, wordPlus]

/-- Pattern `(cleaning|filling|whitening|checkup)\s+(cost|price)`. -/
def servP3 : RE := cats [oneOf ["cleaning", "filling", "whitening", "checkup"], wsp,
  oneOf ["cost", "price"]]

/-- Pattern `(what|when)\s+(are|do)\s+(you|they)\s+(open|close)`. -/
def hoursP1 : RE := cats [oneOf ["what", "when"], wsp, oneOf ["are", "do"], wsp,
  oneOf ["you", "they"], wsp, oneOf ["open", "close"]]

/-- Pattern `(hours|schedule)\s+(of\s+operation)?`. -/
def hoursP2 : RE := cats [oneOf ["hours", "schedule"], wsp,
  ropt (cats [lit "of", wsp, lit "operation"])]

/-- Pattern `(open|closed)\s+(on|during)`. -/
def hoursP3 : RE := cats [oneOf ["open", "closed"], wsp, oneOf ["on", "during"]]

/-- Pattern `(emergency|urgent|pain|hurt)`. -/
def emergP1 : RE := oneOf ["emergency", "urgent", "pain", "hurt"]

/-- Pattern `(broken|cracked|chipped)\s+(tooth|teeth)`. -/
def emergP2 : RE := cats [oneOf ["broken", "cracked", "chipped"], wsp, oneOf ["tooth", "teeth"]]

/-- Pattern `(severe|bad|terrible)\s+(pain|ache)`. -/
def emergP3 : RE := cats [oneOf ["severe", "bad", "terrible"], wsp, oneOf ["pain", "ache"]]

/-- The table `self.intent_patterns`, in its declaration (and hence
iteration) order. -/
def intent_patterns : List (String × List RE) :=
  [("schedule_appointment", [schedP1, schedP2, schedP3, schedP4]),
   ("check_availability", [availP1, availP2, availP3]),
   ("insurance_inquiry", [insurP1, insurP2, insurP3, insurP4]),
   ("service_inquiry", [servP1, servP2, servP3]),
   ("office_hours", [hoursP1, hoursP2, hoursP3]),
   ("emergency", [emergP1, emergP2, emergP3])]

/-- Date pattern `(today|tomorrow|next\s+\w+)`. -/
def dateP1 : RE := alts [lit "today", lit "tomorrow", cats [lit "next", wsp, wordPlus]]

/-- Date pattern for numeric dates with slash-or-dash separators:
two one-or-two-digit groups and a two-to-four-digit group, separated by a
slash or dash. -/
def dateP2 : RE := cats [reDigit, ropt reDigit, alts [RE.chr '/', RE.chr '-'],
  reDigit, ropt reDigit, alts [RE.chr '/', RE.chr '-'],
  reDigit, reDigit, ropt (cats [reDigit, ropt reDigit])]

/-- Date pattern `(monday|tuesday|wednesday|thursday|friday|saturday|sunday)`. -/
def dateP3 : RE :=
  oneOf ["monday", "tuesday", "wednesday", "thursday", "friday", "saturday", "sunday"]

/-- Date pattern `(morning|afternoon|evening|night)`. -/
def dateP4 : RE := oneOf ["morning", "afternoon", "evening", "night"]

/-- The `date_patterns` list of `extract_entities`, in order. -/
def date_patterns : List RE := [dateP1, dateP2, dateP3, dateP4]

/-- The list `self.dental_keywords["services"]`. -/
def service_keywords : List String :=
  ["cleaning", "filling", "whitening", "checkup", "emergency"]

/-- The `insurance_providers` list of `extract_entities`. -/
def insurance_providers : List String :=
  ["delta dental", "aetna", "cigna", "blue cross", "metlife", "unitedhealthcare"]

/-- The `urgency_words` list of `extract_entities`. -/
def urgency_words : List String :=
  ["severe", "bad", "terrible", "excruciating", "unbearable"]

/-- Decidable list-prefix test on characters. -/
def isPrefixB : List Char → List Char → Bool
  | [], _ => true
  | _ :: _, [] => false
  | a :: xs, b :: ys => a == b && isPrefixB xs ys

/-- Python substring containment `needle in hay` (second operand first). -/
def containsSub : List Char → List Char → Bool
  | [], needle => needle.isEmpty
  | c :: rest, needle => isPrefixB needle (c :: rest) || containsSub rest needle

/-- Method `extract_entities(text, intent)` of `VoiceProcessor`: the entity
dict always starts with `original_text`; for `schedule_appointment` the first
matching date pattern (by `re.search`, taking `group(0)`) becomes
`preferred_time` and the first service keyword contained in the text becomes
`service_type`; `insurance_inquiry` and `service_inquiry` do the analogous
single containment scans; `emergency` always sets `urgency_level`, to
`"high"` iff some urgency word occurs.  The dict is modelled as the
association list in insertion order. -/
def extract_entities (t : List Char) (intent : String) : List (String × String) :=
  let entities : List (String × String) := [("original_text", String.mk t)]
  if intent == "schedule_appointment" then
    let e1 :=
      match date_patterns.findSome? (fun p => research p t) with
      | some m => entities ++ [("preferred_time", String.mk m)]
      | none => entities
    match service_keywords.find? (fun kw => containsSub t kw.data) with
    | some kw => e1 ++ [("service_type", kw)]
    | none => e1
  else if intent == "insurance_inquiry" then
    match insurance_providers.find? (fun p => containsSub t p.data) with
    | some p => entities ++ [("insurance_provider", p)]
    | none => entities
  else if intent == "service_inquiry" then
    match service_keywords.find? (fun kw => containsSub t kw.data) with
    | some kw => entities ++ [("service_type", kw)]
    | none => entities
  else if intent == "emergency" then
    entities ++ [("urgency_level",
      if urgency_words.any (fun w => containsSub t w.data) then "high" else "medium")]
  else entities

/-- Normalization `text.lower().strip()` at the head of `extract_intent`. -/
def pyLowerStrip (text : String) : List Char :=
  let l := text.data.map Char.toLower
  ((l.dropWhile isSpaceChar).reverse.dropWhile isSpaceChar).reverse

/-- Test of one intent: some pattern of the list matches somewhere in the
text (`re.search` succeeds). -/
def intentHit (ps : List RE) (t : List Char) : Bool :=
  ps.any (fun p => (research p t).isSome)

/-- Method `extract_intent(text)` of `VoiceProcessor`: lowercases and strips
the text, walks `intent_patterns` in declaration order and returns the first
intent with a matching pattern together with its entities; without any match
it falls back to `general_inquiry` with the query as sole entity. -/
def extract_intent (text : String) : String × List (String × String) :=
  let t := pyLowerStrip text
  match intent_patterns.find? (fun ip => intentHit ip.2 t) with
  | some ip => (ip.1, extract_entities t ip.1)
  | none => ("general_inquiry", [("query", String.mk t)])

/-! ## Lemmas and claim theorems -/

lemma sharedDentist_symm {d e : Option String} (h : sharedDentist d e) :
    sharedDentist e d := by
  rcases h with h | h | h
  · exact Or.inl h.symm
  · exact Or.inr (Or.inr h)
  · exact Or.inr (Or.inl h)

lemma compatP_symm {a b : Appointment} (h : compatP a b) : compatP b a := by
  intro hcon
  rcases hcon with ⟨hb, ha, hsh, hov⟩
  exact h ⟨ha, hb, sharedDentist_symm hsh, hov.2, hov.1⟩

/-- Under the dentist relation of the specification, the dentist filter of
`_has_conflict` never skips a stored appointment. -/
lemma sharedDentist_noskip {d e : Option String} (h : sharedDentist d e) :
    dentistSkip d e = false := by
  rcases h with h | h | h
  · subst h
    simp [dentistSkip]
  · subst h
    simp [dentistSkip, pyTruthy]
  · subst h
    simp [dentistSkip, pyTruthy]

/-- Reading of a failed conflict scan: every stored active appointment that
the dentist filter keeps is overlap-free with the probed interval. -/
lemma hasConflict_false_spec {s : Store} {sd dur : Int} {did : Option String}
    (h : hasConflict s sd dur did = false) :
    ∀ x ∈ s, isActive x = true → dentistSkip did x.dentist_id = false →
      ¬(sd < endTime x ∧ sd + dur > x.scheduled_date) := by
  intro x hx hact hskip hov
  rw [hasConflict, List.any_eq_false] at h
  refine h x hx ?_
  rw [hact, conflictsWith, hskip]
  simp
  exact ⟨hov.1, hov.2⟩

lemma mem_replaceFirst {s : Store} {a y : Appointment}
    (h : y ∈ replaceFirst s a) : y = a ∨ y ∈ s := by
  induction s with
  | nil => simp [replaceFirst] at h
  | cons b rest ih =>
    rw [replaceFirst] at h
    by_cases hb : b.appointment_id == a.appointment_id
    · rw [if_pos hb] at h
      rcases List.mem_cons.mp h with rfl | hm
      · exact Or.inl rfl
      · exact Or.inr (List.mem_cons_of_mem _ hm)
    · rw [if_neg hb] at h
      rcases List.mem_cons.mp h with rfl | hm
      · exact Or.inr (List.mem_cons_self _ _)
      · rcases ih hm with h1 | h1
        · exact Or.inl h1
        · exact Or.inr (List.mem_cons_of_mem _ h1)

lemma pairwise_replaceFirst {R : Appointment → Appointment → Prop} {s : Store}
    {a : Appointment} (hpw : List.Pairwise R s)
    (ha : ∀ x ∈ s, R x a ∧ R a x) : List.Pairwise R (replaceFirst s a) := by
  induction s with
  | nil => exact List.Pairwise.nil
  | cons b rest ih =>
    rw [replaceFirst]
    rcases List.pairwise_cons.mp hpw with ⟨hb, hrest⟩
    by_cases hid : b.appointment_id == a.appointment_id
    · rw [if_pos hid]
      refine List.pairwise_cons.mpr ⟨?_, hrest⟩
      intro y hy
      exact (ha y (List.mem_cons_of_mem _ hy)).2
    · rw [if_neg hid]
      refine List.pairwise_cons.mpr ⟨?_, ?_⟩
      · intro y hy
        rcases mem_replaceFirst hy with rfl | hm
        · exact (ha b (List.mem_cons_self _ _)).1
        · exact hb y hm
      · exact ih hrest (fun x hx => ha x (List.mem_cons_of_mem _ hx))

lemma pairwise_pyInsert {R : Appointment → Appointment → Prop} {s : Store}
    {a : Appointment} (hpw : List.Pairwise R s)
    (ha : ∀ x ∈ s, R x a ∧ R a x) : List.Pairwise R (pyInsert s a) := by
  rw [pyInsert]
  by_cases hmem : s.any (fun b => b.appointment_id == a.appointment_id)
  · rw [if_pos hmem]
    exact pairwise_replaceFirst hpw ha
  · rw [if_neg hmem]
    rw [List.pairwise_append]
    refine ⟨hpw, List.pairwise_singleton _ _, ?_⟩
    intro x hx y hy
    rcases List.mem_singleton.mp hy with rfl
    exact (ha x hx).1

lemma mem_updateFirst {aid : String} {f : Appointment → Appointment} {s : Store}
    {y : Appointment} (h : y ∈ updateFirst aid f s) :
    y ∈ s ∨ ∃ a0, getAppointment s aid = some a0 ∧ y = f a0 := by
  induction s with
  | nil => simp [updateFirst] at h
  | cons b rest ih =>
    rw [updateFirst] at h
    by_cases hb : b.appointment_id == aid
    · rw [if_pos hb] at h
      rcases List.mem_cons.mp h with rfl | hm
      · exact Or.inr ⟨b, by simp [getAppointment, List.find?, hb], rfl⟩
      · exact Or.inl (List.mem_cons_of_mem _ hm)
    · rw [if_neg hb] at h
      rcases List.mem_cons.mp h with rfl | hm
      · exact Or.inl (List.mem_cons_self _ _)
      · rcases ih hm with h1 | ⟨a0, ha0, hy⟩
        · exact Or.inl (List.mem_cons_of_mem _ h1)
        · refine Or.inr ⟨a0, ?_, hy⟩
          rw [getAppointment, List.find?]
          rw [Bool.not_eq_true] at hb
          rw [hb]
          exact ha0

lemma pairwise_updateFirst {R : Appointment → Appointment → Prop}
    {aid : String} {f : Appointment → Appointment} {s : Store}
    (hpw : List.Pairwise R s)
    (hR : ∀ a0, getAppointment s aid = some a0 →
      ∀ x ∈ s, R (f a0) x ∧ R x (f a0)) :
    List.Pairwise R (updateFirst aid f s) := by
  induction s with
  | nil => exact List.Pairwise.nil
  | cons b rest ih =>
    rw [updateFirst]
    rcases List.pairwise_cons.mp hpw with ⟨hb, hrest⟩
    by_cases hid : b.appointment_id == aid
    · rw [if_pos hid]
      have hfind : getAppointment (b :: rest) aid = some b := by
        simp [getAppointment, List.find?, hid]
      refine List.pairwise_cons.mpr ⟨?_, hrest⟩
      intro y hy
      exact (hR b hfind y (List.mem_cons_of_mem _ hy)).1
    · rw [if_neg hid]
      have hfind : ∀ a0, getAppointment rest aid = some a0 →
          getAppointment (b :: rest) aid = some a0 := by
        intro a0 ha0
        rw [getAppointment, List.find?]
        rw [Bool.not_eq_true] at hid
        rw [hid]
        exact ha0
      refine List.pairwise_cons.mpr ⟨?_, ?_⟩
      · intro y hy
        rcases mem_updateFirst hy with hm | ⟨a0, ha0, hy0⟩
        · exact hb y hm
        · subst hy0
          exact (hR a0 (hfind a0 ha0) b (List.mem_cons_self _ _)).2
      · exact ih hrest (fun a0 ha0 x hx =>
          hR a0 (hfind a0 ha0) x (List.mem_cons_of_mem _ hx))

lemma create_preserves (s : Store) (pid : String) (ty : AppointmentType)
    (sd dur : Int) (did : Option String) (notes : String) (now : Int)
    (h : NoDoubleBooking s) :
    NoDoubleBooking (createAppointment s pid ty sd dur did notes now).2 := by
  rw [createAppointment]
  by_cases hc : hasConflict s sd dur did
  · rw [if_pos hc]
    exact h
  · rw [if_neg hc]
    simp only []
    apply pairwise_pyInsert h
    intro x hx
    rw [Bool.not_eq_true] at hc
    have hscan := hasConflict_false_spec hc x hx
    have hax : compatP (newAppointment s pid ty sd dur did notes now) x := by
      intro hcon
      rcases hcon with ⟨_, hactx, hsh, hov⟩
      exact hscan hactx (sharedDentist_noskip hsh) ⟨hov.1, hov.2⟩
    exact ⟨compatP_symm hax, hax⟩

lemma reschedule_preserves (s : Store) (aid : String) (nd now : Int)
    (h : NoDoubleBooking s) :
    NoDoubleBooking (rescheduleAppointment s aid nd now).2 := by
  rw [rescheduleAppointment]
  cases hfind : getAppointment s aid with
  | none => exact h
  | some a =>
    by_cases hc : hasConflict s nd a.duration_minutes a.dentist_id = true
    · simpa [hc] using h
    · simp only [hc, if_false]
      apply pairwise_updateFirst h
      intro a0 ha0 x hx
      rw [hfind] at ha0
      have ha0' : a = a0 := by injection ha0
      subst ha0'
      rw [Bool.not_eq_true] at hc
      have hscan := hasConflict_false_spec hc x hx
      have hax : compatP { a with scheduled_date := nd, updated_at := now } x := by
        intro hcon
        rcases hcon with ⟨hacta, hactx, hsh, hov⟩
        have hskip : dentistSkip a.dentist_id x.dentist_id = false :=
          sharedDentist_noskip hsh
        refine hscan ?_ hskip ⟨?_, ?_⟩
        · exact hactx
        · exact hov.1
        · exact hov.2
      exact ⟨hax, compatP_symm hax⟩

/-- C1 — Starting from a conflict-free store, every sequence of sequential
`create_appointment` and `reschedule_appointment` calls preserves the
invariant that no two stored appointments whose status is not `cancelled` or
`no_show`, and that share a dentist id or where either dentist id is `None`,
have overlapping `[start, start + duration)` intervals. -/
theorem no_double_booking (s : Store) (ops : List Op)
    (h : NoDoubleBooking s) : NoDoubleBooking (runOps s ops) := by
  induction ops generalizing s with
  | nil => exact h
  | cons op rest ih =>
    rw [runOps, List.foldl_cons]
    apply ih
    cases op with
    | create pid ty sd dur did notes now => exact create_preserves s pid ty sd dur did notes now h
    | reschedule aid nd now => exact reschedule_preserves s aid nd now h

/-- C1 witness — a concrete conflict-free store stays conflict-free under a
concrete create followed by a reschedule. -/
theorem no_double_booking_witness :
    NoDoubleBooking (runOps [demoAppt "A0001" 600 60 none .scheduled ""]
      [Op.create "P0002" .filling 700 60 none "" 0, Op.reschedule "A0001" 900 0]) :=
  no_double_booking [demoAppt "A0001" 600 60 none .scheduled ""]
    [Op.create "P0002" .filling 700 60 none "" 0, Op.reschedule "A0001" 900 0]
    (by decide)

/-- C2 counterexample — rescheduling the only appointment of the store to a
time that overlaps only its own current interval returns `false` and leaves
the store unchanged: the conflict scan of `reschedule_appointment` does not
exclude the appointment being rescheduled, contrary to the claim that this
call succeeds and returns `true`. -/
theorem reschedule_self_overlap_fails :
    rescheduleAppointment soloStore "A0001" 630 0 = (false, soloStore) := by decide

/-- C2 amended — `reschedule_appointment(id, newStart)` re-validates conflicts
with the appointment's existing duration and dentist id, but the scan runs
over the whole store with the appointment being rescheduled included; it
returns `false` without mutation on a missing id or on a conflict (even a
conflict with the appointment's own current interval), and otherwise rewrites
the scheduled date and `updated_at` of that appointment. -/
theorem reschedule_validates (s : Store) (aid : String) (nd now : Int) :
    (getAppointment s aid = none → rescheduleAppointment s aid nd now = (false, s)) ∧
    (∀ a0, getAppointment s aid = some a0 →
      (hasConflict s nd a0.duration_minutes a0.dentist_id = true →
        rescheduleAppointment s aid nd now = (false, s)) ∧
      (hasConflict s nd a0.duration_minutes a0.dentist_id = false →
        rescheduleAppointment s aid nd now =
          (true, updateFirst aid
            (fun b => { b with scheduled_date := nd, updated_at := now }) s))) := by
  refine ⟨?_, ?_⟩
  · intro h
    simp [rescheduleAppointment, h]
  · intro a0 h
    refine ⟨?_, ?_⟩ <;> intro hc <;> simp [rescheduleAppointment, h, hc]

/-- C2 witness — the amended statement evaluated on the one-appointment store:
a non-overlapping move succeeds and rewrites the date, the overlapping move is
refused. -/
theorem reschedule_validates_witness :
    rescheduleAppointment soloStore "A0001" 1000 7 =
      (true, updateFirst "A0001"
        (fun b => { b with scheduled_date := 1000, updated_at := 7 }) soloStore) ∧
    rescheduleAppointment soloStore "A0001" 630 7 = (false, soloStore) := by
  refine ⟨?_, ?_⟩
  · exact ((reschedule_validates soloStore "A0001" 1000 7).2
      (demoAppt "A0001" 600 60 none .scheduled "") (by decide)).2 (by decide)
  · exact ((reschedule_validates soloStore "A0001" 630 7).2
      (demoAppt "A0001" 600 60 none .scheduled "") (by decide)).1 (by decide)

/-- C3 counterexample — on a day with no appointments and 60-minute duration
the slot generator returns 15 slots (09:00 through 16:00 at a 30-minute
stride), not the 16 the claim states. -/
theorem slots_empty_day_count :
    (getAvailableSlots [] 0 60 none).length = 15 ∧
    ¬((getAvailableSlots [] 0 60 none).length = 16) := by decide

lemma slotsLoop_empty (dur : Int) (did : Option String) (endT : Int) :
    ∀ (fuel : Nat) (cur : Int),
      (∀ k : Nat, k < fuel → cur + 30 * k + dur ≤ endT) →
      slotsLoop [] dur did endT fuel cur = apList cur 30 fuel := by
  intro fuel
  induction fuel with
  | zero => intro cur _; simp [slotsLoop, apList]
  | succ n ih =>
    intro cur hk
    have h1 : cur + dur ≤ endT := by
      have := hk 0 (by omega)
      simpa using this
    have hrec : ∀ k : Nat, k < n → cur + 30 + 30 * k + dur ≤ endT := by
      intro k hkn
      have := hk (k + 1) (by omega)
      push_cast at this ⊢
      omega
    rw [slotsLoop, if_pos h1]
    have hnc : hasConflict [] cur dur did = false := rfl
    rw [hnc]
    simp only [Bool.false_eq_true, if_false]
    rw [ih (cur + 30) hrec]
    rfl

/-- C3 amended — for every date (`D` is midnight of the date, in minutes),
`get_available_slots(date, 60)` on an empty store returns exactly 15 slots,
at 09:00, 09:30, … through 16:00, each slot's end within the 17:00 window
end, in chronological order. -/
theorem slots_empty_day (D : Int) :
    getAvailableSlots [] D 60 none =
      [D + 540, D + 570, D + 600, D + 630, D + 660, D + 690, D + 720, D + 750,
       D + 780, D + 810, D + 840, D + 870, D + 900, D + 930, D + 960] := by
  have hfuel : slotsFuel 60 = 15 := rfl
  rw [getAvailableSlots, hfuel]
  rw [slotsLoop_empty 60 none (D + 1020) 15 (D + 540) (by intro k hk; omega)]
  simp [apList]
  omega

/-- C4 counterexample — with the probing appointment carrying the assigned
dentist id `""` and the stored appointment the different assigned id `"B"`,
the source's predicate still reports a conflict on full overlap (the empty
string is falsy in Python, so the dentist filter does not skip), while the
claim's formula exempts this pair: the two predicates differ. -/
theorem conflict_rule_cex :
    conflictsWith 0 60 (some "") (demoAppt "A0001" 0 60 (some "B") .scheduled "") = true ∧
    ¬ specConflict 0 60 (some "")
      (demoAppt "A0001" 0 60 (some "B") .scheduled "") := by decide

/-- C4 amended — the conflict predicate used by create/reschedule/slot
generation (the per-appointment test of `_has_conflict`) holds iff the
`[start, start + duration)` intervals overlap AND NOT (both sides have a
truthy — assigned and non-empty — dentist id and the two ids differ); absence
of a dentist id on either side never exempts an overlapping pair, and an
empty-string dentist id behaves like an absent one. -/
theorem conflict_rule (sd dur : Int) (did : Option String) (a : Appointment) :
    conflictsWith sd dur did a = true ↔
      ((sd < endTime a ∧ sd + dur > a.scheduled_date) ∧
       ¬(pyTruthy did = true ∧ pyTruthy a.dentist_id = true ∧ a.dentist_id ≠ did)) := by
  cases hd : pyTruthy did <;> cases ha : pyTruthy a.dentist_id <;>
    by_cases he : a.dentist_id = did <;>
      simp [conflictsWith, dentistSkip, hd, ha, he, and_assoc]

/-- C5 — `cancel_appointment(id, reason)` returns `false` without mutation on
a missing id; on a stored appointment it returns `true` iff the current time
is strictly more than 24 hours before the scheduled start, in which case the
stored appointment's status becomes `cancelled`, `updated_at` is refreshed and
the cancellation note (carrying the reason) is appended to its notes — and
otherwise it returns `false` without mutation. -/
theorem cancel_spec (s : Store) (aid reason : String) (now : Int) :
    (getAppointment s aid = none → cancelAppointment s aid reason now = (false, s)) ∧
    (∀ a0, getAppointment s aid = some a0 →
      ((cancelAppointment s aid reason now).1 = true ↔ now + 24 * 60 < a0.scheduled_date) ∧
      (now + 24 * 60 < a0.scheduled_date →
        cancelAppointment s aid reason now =
          (true, updateFirst aid (cancelUpd reason now) s)) ∧
      (¬(now + 24 * 60 < a0.scheduled_date) →
        cancelAppointment s aid reason now = (false, s))) := by
  refine ⟨?_, ?_⟩
  · intro h
    simp [cancelAppointment, h]
  · intro a0 h
    by_cases hg : now + 24 * 60 < a0.scheduled_date
    · have hcb : canBeCancelled a0 now = true := by
        rw [canBeCancelled]; exact decide_eq_true hg
      have hres : cancelAppointment s aid reason now =
          (true, updateFirst aid (cancelUpd reason now) s) := by
        simp [cancelAppointment, h, hcb]
      exact ⟨by rw [hres]; exact iff_of_true rfl hg, fun _ => hres, fun hn => absurd hg hn⟩
    · have hcb : canBeCancelled a0 now = false := by
        rw [canBeCancelled]; exact decide_eq_false hg
      have hres : cancelAppointment s aid reason now = (false, s) := by
        simp [cancelAppointment, h, hcb]
      refine ⟨?_, fun hcon => absurd hcon hg, fun _ => hres⟩
      rw [hres]
      exact iff_of_false (by simp) hg

/-- C5 witness — at `now = 0`: cancelling the appointment 23 hours away is
rejected, cancelling the one 25 hours away succeeds, and a missing id is
rejected. -/
theorem cancel_spec_witness :
    cancelAppointment store23h "A0001" "sick" 0 = (false, store23h) ∧
    (cancelAppointment store25h "A0001" "sick" 0).1 = true ∧
    cancelAppointment store25h "B9999" "sick" 0 = (false, store25h) := by
  refine ⟨?_, ?_, ?_⟩
  · exact ((cancel_spec store23h "A0001" "sick" 0).2
      (demoAppt "A0001" 1380 60 none .scheduled "") (by decide)).2.2 (by decide)
  · rw [((cancel_spec store25h "A0001" "sick" 0).2
      (demoAppt "A0001" 1500 60 none .scheduled "") (by decide)).2.1 (by decide)]
  · exact (cancel_spec store25h "B9999" "sick" 0).1 (by decide)

/-- C10 — `cancel_appointment` never inspects the appointment's status: for
every stored appointment whose start is more than 24 hours after `now`,
cancel succeeds whatever the current status (already cancelled, completed or
no-show included), and the mutation always appends a further cancellation
line to the existing notes, so repeated cancels accumulate notes. -/
theorem cancel_ignores_status (s : Store) (aid reason : String) (now : Int)
    (a0 : Appointment) (hfind : getAppointment s aid = some a0)
    (hg : now + 24 * 60 < a0.scheduled_date) :
    cancelAppointment s aid reason now =
      (true, updateFirst aid (cancelUpd reason now) s) ∧
    (cancelUpd reason now a0).status = AppointmentStatus.cancelled ∧
    (cancelUpd reason now a0).notes = a0.notes ++ cancelNote reason := by
  have hcb : canBeCancelled a0 now = true := by
    rw [canBeCancelled]; exact decide_eq_true hg
  exact ⟨by simp [cancelAppointment, hfind, hcb], rfl, rfl⟩

/-- C10 witness — cancelling an already-cancelled appointment succeeds again,
and a second cancel accumulates a second note line. -/
theorem cancel_ignores_status_witness :
    (cancelAppointment cancelledStore "A0001" "r1" 0).1 = true ∧
    (cancelAppointment (cancelAppointment cancelledStore "A0001" "r1" 0).2
      "A0001" "r2" 10).1 = true ∧
    (getAppointment (cancelAppointment (cancelAppointment cancelledStore "A0001" "r1" 0).2
      "A0001" "r2" 10).2 "A0001").map Appointment.notes =
        some "n0\nCancelled: r1\nCancelled: r2" := by
  have h1 := cancel_ignores_status cancelledStore "A0001" "r1" 0
    (demoAppt "A0001" 5000 60 none .cancelled "n0") (by decide) (by decide)
  rw [h1.1]
  decide

/-- C6 — a `create_appointment` call whose requested interval conflicts with
some stored active appointment returns the `None` sentinel and leaves the
store exactly unchanged (so no id is consumed either, since ids derive from
the store); on success it returns a new appointment with status `scheduled`
and the next sequential id, stored via dict assignment — which is a plain
append whenever the generated id is fresh. -/
theorem create_spec (s : Store) (pid : String) (ty : AppointmentType)
    (sd dur : Int) (did : Option String) (notes : String) (now : Int) :
    (hasConflict s sd dur did = true →
      createAppointment s pid ty sd dur did notes now = (none, s)) ∧
    (hasConflict s sd dur did = false →
      createAppointment s pid ty sd dur did notes now =
        (some (newAppointment s pid ty sd dur did notes now),
          pyInsert s (newAppointment s pid ty sd dur did notes now)) ∧
      (newAppointment s pid ty sd dur did notes now).status =
        AppointmentStatus.scheduled ∧
      (newAppointment s pid ty sd dur did notes now).appointment_id = nextId s ∧
      ((s.any fun b => b.appointment_id == nextId s) = false →
        pyInsert s (newAppointment s pid ty sd dur did notes now) =
          s ++ [newAppointment s pid ty sd dur did notes now])) := by
  refine ⟨?_, ?_⟩
  · intro h
    simp [createAppointment, h]
  · intro h
    refine ⟨by simp [createAppointment, h], rfl, rfl, ?_⟩
    intro hfresh
    have hfresh2 : (s.any fun b =>
        b.appointment_id == (newAppointment s pid ty sd dur did notes now).appointment_id)
        = false := hfresh
    simp [pyInsert, hfresh2]

/-- C6 witness — a conflicting create is refused with an unchanged store, and
a conflict-free create appends the fresh `A0002` appointment. -/
theorem create_spec_witness :
    createAppointment busyStore "P0002" .filling 630 60 none "" 0 = (none, busyStore) ∧
    createAppointment busyStore "P0002" .filling 700 60 none "" 0 =
      (some (newAppointment busyStore "P0002" .filling 700 60 none "" 0),
        busyStore ++ [newAppointment busyStore "P0002" .filling 700 60 none "" 0]) := by
  refine ⟨?_, ?_⟩
  · exact (create_spec busyStore "P0002" .filling 630 60 none "" 0).1 (by decide)
  · have h := (create_spec busyStore "P0002" .filling 700 60 none "" 0).2 (by decide)
    rw [h.1, h.2.2.2 (by decide)]

lemma statusValue_roundtrip (st : AppointmentStatus) :
    statusFromValue (statusValue st) = some st := by
  cases st <;> rfl

lemma typeValue_roundtrip (ty : AppointmentType) :
    typeFromValue (typeValue ty) = some ty := by
  cases ty <;> rfl

/-- C9 — serializing any appointment with `to_dict` (as the full-store save
does) and rebuilding it with `_create_appointment_from_dict` reproduces an
appointment with identical id, patient id, type, scheduled date, duration,
dentist id, notes, status, created/updated timestamps, reminders-sent list
and treatment-notes list. -/
theorem appointment_roundtrip (a : Appointment) :
    createAppointmentFromDict (to_dict a) = some a := by
  cases a
  simp [to_dict, createAppointmentFromDict, statusValue_roundtrip,
    typeValue_roundtrip]

lemma find?_first_spec {α : Type} (p : α → Bool) (l : List α) :
    (l.find? p = none ∧ ∀ x ∈ l, p x = false) ∨
    ∃ i : Fin l.length, l.find? p = some (l.get i) ∧ p (l.get i) = true ∧
      ∀ j : Fin l.length, j.val < i.val → p (l.get j) = false := by
  induction l with
  | nil => left; simp
  | cons a t ih =>
    cases hp : p a with
    | true =>
      right
      refine ⟨⟨0, by simp⟩, ?_, hp, ?_⟩
      · simp [List.find?_cons_of_pos, hp]
      · intro j hj
        simp at hj
    | false =>
      rcases ih with ⟨h1, h2⟩ | ⟨i, hf, hpi, hlt⟩
      · left
        refine ⟨by simp [List.find?_cons_of_neg, hp, h1], ?_⟩
        intro x hx
        rcases List.mem_cons.mp hx with rfl | hm
        · exact hp
        · exact h2 x hm
      · right
        refine ⟨i.succ, ?_, ?_, ?_⟩
        · simpa [List.find?_cons_of_neg, hp] using hf
        · simpa using hpi
        · intro j hj
          rcases j with ⟨jv, hjv⟩
          cases jv with
          | zero => exact hp
          | succ k =>
            have hk : k < i.val := by simpa using hj
            have := hlt ⟨k, by simpa using Nat.lt_of_succ_lt_succ hjv⟩ hk
            simpa using this

/-- C7 — `extract_intent` lowercases and strips the input, then walks the
six intents in their fixed declaration order `{schedule_appointment,
check_availability, insurance_inquiry, service_inquiry, office_hours,
emergency}`, testing each intent's patterns in list order, and resolves to
the first declared intent with a matching pattern (first-match-wins, not
best-match); without any match it falls back to `general_inquiry`.  In
particular a text matched by patterns of several intents resolves to the
earliest-declared matching one. -/
theorem extract_intent_first_match (text : String) :
    intent_patterns.map Prod.fst =
      ["schedule_appointment", "check_availability", "insurance_inquiry",
       "service_inquiry", "office_hours", "emergency"] ∧
    ((∀ ip ∈ intent_patterns, intentHit ip.2 (pyLowerStrip text) = false) ∧
       extract_intent text =
         ("general_inquiry", [("query", String.mk (pyLowerStrip text))]) ∨
     ∃ i : Fin intent_patterns.length,
       intentHit (intent_patterns.get i).2 (pyLowerStrip text) = true ∧
       (∀ j : Fin intent_patterns.length, j.val < i.val →
         intentHit (intent_patterns.get j).2 (pyLowerStrip text) = false) ∧
       extract_intent text =
         ((intent_patterns.get i).1,
           extract_entities (pyLowerStrip text) (intent_patterns.get i).1)) := by
  refine ⟨rfl, ?_⟩
  rcases find?_first_spec (fun ip => intentHit ip.2 (pyLowerStrip text))
    intent_patterns with ⟨h1, h2⟩ | ⟨i, hf, hpi, hlt⟩
  · left
    exact ⟨h2, by simp [extract_intent, h1]⟩
  · right
    exact ⟨i, hpi, hlt, by simp [extract_intent, hf]⟩

/-- C8 — on the literal utterance the dispatcher returns the intent
`schedule_appointment`, and the extracted entities contain
`service_type = "cleaning"` and `preferred_time = "tomorrow"` (the literal
matched by the first date pattern, `(today|tomorrow|next\s+\w+)`, in
declared order). -/
theorem extract_intent_cleaning_example :
    (extract_intent "I want to schedule a cleaning appointment for tomorrow morning").1 =
      "schedule_appointment" ∧
    ("service_type", "cleaning") ∈
      (extract_intent "I want to schedule a cleaning appointment for tomorrow morning").2 ∧
    ("preferred_time", "tomorrow") ∈
      (extract_intent "I want to schedule a cleaning appointment for tomorrow morning").2 := by
  decide

/-- C7 witness — the theorem applied at a concrete utterance, giving the
declared intent order. -/
theorem extract_intent_first_match_witness :
    intent_patterns.map Prod.fst =
      ["schedule_appointment", "check_availability", "insurance_inquiry",
       "service_inquiry", "office_hours", "emergency"] :=
  (extract_intent_first_match "hello").1

/-- C4 amended witness — a dentist-free overlapping pair conflicts. -/
theorem conflict_rule_witness :
    conflictsWith 0 60 none (demoAppt "A0001" 0 60 none .scheduled "") = true :=
  (conflict_rule 0 60 none (demoAppt "A0001" 0 60 none .scheduled "")).mpr (by decide)

/-- C3 amended witness — the amended statement evaluated at date 0. -/
theorem slots_empty_day_witness :
    getAvailableSlots [] 0 60 none =
      [540, 570, 600, 630, 660, 690, 720, 750, 780, 810, 840, 870, 900, 930, 960] := by
  simpa using slots_empty_day 0

/-- C9 witness — the round trip evaluated on a concrete appointment. -/
theorem appointment_roundtrip_witness :
    createAppointmentFromDict (to_dict (demoAppt "A0001" 600 60 (some "D1") .confirmed "n")) =
      some (demoAppt "A0001" 600 60 (some "D1") .confirmed "n") :=
  appointment_roundtrip (demoAppt "A0001" 600 60 (some "D1") .confirmed "n")
